import Mathlib

/-!
Verification of the asgardeo-auth-spa-sdk web-worker client and SPA helper.

Shallow embedding of `src/lib/src/clients/web-worker-client.ts` and
`src/lib/src/helpers/spa-helper.ts`.  Browser/JS primitives are modelled
explicitly:

* JSON payload strings exchanged with the worker are represented by the
  JSON value they deserialize to (`JsValue`); a serialized JSON string is
  never empty, so a wire string is JS-truthy exactly when the payload is
  present (`Option`).  JSON arrays are not modelled: no claim under
  consideration exercises an array payload.
* `setTimeout`/`clearTimeout` are modelled by an explicit timer table in
  the state; handles issued by `setTimeout` are positive integers, as in
  browsers.
* Promise settlement is modelled by a settle-once state: the first
  `resolve`/`reject` wins and later ones are ignored, as for JS promises.
* External collaborators (the `@asgardeo/auth-js` engine, the DOM, URL
  parsing) appear as function parameters or as data already extracted
  from them, never as behaviour invented here.
-/

namespace AsgardeoSpa

/-- A JSON-like JS value (worker payloads after `JSON.parse`), extended with
a reference to a `Blob` (identified by a number) which the client can attach
to a payload. -/
inductive JsValue where
  | jnull
  | jbool (b : Bool)
  | jnum (n : Int)
  | jstr (s : String)
  | jobj (fields : List (String × JsValue))
  | jblob (b : Nat)

/-- JS truthiness of an optional string: `undefined` and `""` are falsy. -/
def jsTruthyOptStr : Option String → Bool
  | none => false
  | some s => decide (s ≠ "")

/-- JS truthiness of an optional number: `undefined` and `0` are falsy. -/
def jsTruthyOptNum : Option Int → Bool
  | none => false
  | some n => decide (n ≠ 0)

/-- `ResponseMessage` (src/lib/src/models): `{ success, data?, blob?, error? }`.
`data` and `error` hold the deserialization of the wire strings when those
strings are present (JS-truthy). -/
structure ResponseMessage where
  success : Bool
  data : Option JsValue := none
  blob : Option Nat := none
  error : Option JsValue := none

/-- Update (or append) a field of a JS object's field list, as JS property
assignment does. -/
def setField : List (String × JsValue) → String → JsValue → List (String × JsValue)
  | [], k, v => [(k, v)]
  | (k₀, v₀) :: rest, k, v =>
    if k₀ = k then (k, v) :: rest else (k₀, v₀) :: setField rest k v

/-- `responseData.data = data?.blob` — JS property assignment.  Succeeds on an
object; on `null` or a primitive it throws a `TypeError` in strict mode
(modelled by `none`). -/
def attachBlob : JsValue → Nat → Option JsValue
  | .jobj fs, b => some (.jobj (setField fs "data" (.jblob b)))
  | _, _ => none

/-- `AsgardeoSPAException` as constructed by the client
(src/lib/src/exception). -/
structure SPAException where
  code : String
  componentId : String
  method : String
  message : String
  description : String

/-- `config?.requestTimeout ?? 60000` (web-worker-client.ts line 93).
`??` only replaces `null`/`undefined`, exactly like `Option.getD`.  The
timeout is kept as a rational number of milliseconds. -/
def requestTimeoutOf (configured : Option ℚ) : ℚ :=
  configured.getD 60000

/-- The timeout exception built in `communicate` (web-worker-client.ts
lines 123-134); its description embeds `_requestTimeout / 1000`.  (JS
renders non-integral floats differently from `ℚ`, but the embedded value
is the same number.) -/
def timeoutException (requestTimeout : ℚ) : SPAException :=
  { code := "WEB_WORKER_CLIENT-COM-TO-01"
    componentId := "web-worker-client"
    method := "communicate"
    message := "Operation timed out."
    description :=
      "No response was received from the web worker for " ++
        toString (requestTimeout / 1000) ++ " since dispatching the request" }

/-- The payload with which the `communicate` promise rejects: the timeout
exception, or the error reported by the worker (`null` when it sent none). -/
inductive RejectPayload where
  | timeout (e : SPAException)
  | remote (payload : Option JsValue)

/-- A settlement of the `communicate` promise. -/
inductive Settle where
  | resolve (v : JsValue)
  | reject (p : RejectPayload)

/-- Promise state of one `communicate` call: whether the per-call timeout
timer is still armed, and the (at most one) settlement. -/
structure ChanState where
  timerCleared : Bool := false
  settled : Option Settle := none

/-- The state right after `communicate` posts the message on a fresh
`MessageChannel` and installs the timer and the `onmessage` handler. -/
def chanInit : ChanState := {}

/-- JS promises settle at most once; later `resolve`/`reject` calls are
ignored. -/
def settleOnce (s : ChanState) (v : Settle) : ChanState :=
  match s.settled with
  | some _ => s
  | none => { s with settled := some v }

/-- The `onmessage` handler body (web-worker-client.ts lines 140-149), run
after `clearTimeout`: returns the settlement it performs, or `none` when the
body throws (blob attachment onto a non-object payload) and the promise is
left unsettled. -/
def handleMessage (m : ResponseMessage) : Option Settle :=
  if m.success then
    let responseData := m.data.getD .jnull
    match m.blob with
    | some b =>
      match attachBlob responseData b with
      | some v => some (.resolve v)
      | none => none
    | none => some (.resolve responseData)
  else
    some (.reject (.remote m.error))

/-- An event observable by one `communicate` call: its timeout timer fires,
or a message arrives on the call's dedicated channel port. -/
inductive ChanEvent where
  | timerFires
  | message (m : ResponseMessage)

/-- Event semantics of `communicate` (web-worker-client.ts lines 117-152):
the timeout callback rejects with the timeout exception; the `onmessage`
handler first clears the timer (line 138), then settles per
`handleMessage`. -/
def stepChan (rt : ℚ) (s : ChanState) : ChanEvent → ChanState
  | .timerFires =>
    if s.timerCleared then s
    else settleOnce { s with timerCleared := true }
           (.reject (.timeout (timeoutException rt)))
  | .message m =>
    let s₁ : ChanState := { s with timerCleared := true }
    match handleMessage m with
    | some v => settleOnce s₁ v
    | none => s₁

/-- Run a `communicate` call over a sequence of events. -/
def runChan (rt : ℚ) (s : ChanState) (es : List ChanEvent) : ChanState :=
  es.foldl (stepChan rt) s

/-- A response with `success`, a blob part, but no `data` payload: the
counterexample input for the resolution claim. -/
def blobWithoutDataMsg : ResponseMessage := { success := true, blob := some 0 }

/-- Well-formedness of a worker response: a successful response carrying a
blob part also carries a `data` payload that deserializes to an object
(the shape `httpRequest` responses actually have). -/
def WellFormedResponse (m : ResponseMessage) : Prop :=
  m.success = true → ∀ b, m.blob = some b → ∃ fs, m.data = some (.jobj fs)

/-- A well-formed successful response with a blob part, for the witness. -/
def goodBlobMsg : ResponseMessage :=
  { success := true, data := some (.jobj [("x", .jnum 1)]), blob := some 7 }

/-! ### SPA helper (spa-helper.ts): session timer -/

/-- The part of the session data read by `refreshAccessTokenAutomatically`:
`refresh_token` (absent or a string) and `expires_in`.  In the source
`expires_in` is a string run through `parseInt`; `expires_in` here is that
parsed value. -/
structure SessionData where
  refresh_token : Option String := none
  expires_in : Int := 0
  deriving DecidableEq

/-- State of one client instance as seen by the `SPAHelper` methods:
the session data, the `REFRESH_TOKEN_TIMER` temporary-data parameter
(`JSON.stringify`/`JSON.parse` of a number round-trips, so it is kept as the
number), the armed timers (handle, delay in ms), the next fresh `setTimeout`
handle, and a log of every handle passed to `clearTimeout`. -/
structure SPAState where
  sessionData : SessionData
  refreshTimerParam : Option Int := none
  timers : List (Int × Int) := []
  nextHandle : Int := 1
  clearLog : List Int := []
  deriving DecidableEq

/-- `setTimeout`: arms a one-shot timer and returns a fresh handle. -/
def setTimeoutJS (st : SPAState) (delayMs : Int) : Int × SPAState :=
  (st.nextHandle,
    { st with
      timers := st.timers ++ [(st.nextHandle, delayMs)]
      nextHandle := st.nextHandle + 1 })

/-- `clearTimeout(h)`: disarms the timer with handle `h` (a no-op on any
other number — `clearTimeout` never throws) and records the call. -/
def clearTimeoutJS (st : SPAState) (h : Int) : SPAState :=
  { st with
    timers := st.timers.filter (fun t => t.1 ≠ h)
    clearLog := st.clearLog ++ [h] }

/-- `SPAHelper.refreshAccessTokenAutomatically` (spa-helper.ts lines 31-48):
when `sessionData.refresh_token` is truthy, arm a timer for
`(expiryTime <= 10 ? expiryTime : expiryTime - 10) * 1000` ms and persist
the handle under `REFRESH_TOKEN_TIMER`; otherwise do nothing. -/
def refreshAccessTokenAutomatically (st : SPAState) : SPAState :=
  if jsTruthyOptStr st.sessionData.refresh_token then
    let expiryTime := st.sessionData.expires_in
    let time := if expiryTime ≤ 10 then expiryTime else expiryTime - 10
    let p := setTimeoutJS st (time * 1000)
    { p.2 with refreshTimerParam := some p.1 }
  else st

/-- `SPAHelper.getRefreshTimeoutTimer` (spa-helper.ts lines 50-58): the
persisted handle, or `-1` when nothing is stored.  (The stored value is a
`JSON.stringify` string, which is nonempty and hence truthy exactly when a
value is stored.) -/
def getRefreshTimeoutTimer (st : SPAState) : Int :=
  match st.refreshTimerParam with
  | some v => v
  | none => -1

/-- `SPAHelper.clearRefreshTokenTimeout` (spa-helper.ts lines 61-73):
`if (timer)` is a JS truthiness test, so an explicit handle is used only if
it is present and nonzero; otherwise the persisted handle is looked up and
cleared only when it differs from the `-1` sentinel. -/
def clearRefreshTokenTimeout (st : SPAState) (timer : Option Int) : SPAState :=
  if jsTruthyOptNum timer then
    clearTimeoutJS st (timer.getD 0)
  else
    let refreshTimer := getRefreshTimeoutTimer st
    if refreshTimer ≠ -1 then clearTimeoutJS st refreshTimer else st

/-- Modelled from the spec: the call sites that schedule the refresh timer
(the authentication helper / worker context) are not under src/; the spec
says "scheduling a new one must be preceded by cancelling any previous one
found in the store", so scheduling is cancellation (with no explicit handle)
followed by `refreshAccessTokenAutomatically`. -/
def scheduleRefresh (st : SPAState) : SPAState :=
  refreshAccessTokenAutomatically (clearRefreshTokenTimeout st none)

/-- Instance invariant for the session timer: at most one timer is armed,
handles are positive and below the allocator's next handle, and any armed
timer's handle is the persisted one. -/
def TimerInv (st : SPAState) : Prop :=
  st.timers.length ≤ 1 ∧ 1 ≤ st.nextHandle ∧
    ∀ t ∈ st.timers, st.refreshTimerParam = some t.1 ∧ 1 ≤ t.1 ∧ t.1 < st.nextHandle

instance (st : SPAState) : Decidable (TimerInv st) := by
  unfold TimerInv; infer_instance

/-- A fresh client state with no session data, for witnesses. -/
def emptySPAState : SPAState := { sessionData := {} }

/-! ### Silent sign-in (web-worker-client.ts, `trySignInSilently` host role)

The constants live in `src/lib/src/constants` (not under src/); the client
only relies on the two signal types being distinct strings, so they are
modelled as distinct literals. -/

def CHECK_SESSION_SIGNED_IN : String := "CHECK_SESSION_SIGNED_IN"

def CHECK_SESSION_SIGNED_OUT : String := "CHECK_SESSION_SIGNED_OUT"

/-- The `AuthorizationInfo` payload of a postMessage signal (`data.data`),
with every field optional as on the wire. -/
structure AuthInfoMsg where
  code : Option String := none
  sessionState : Option String := none
  state : Option String := none

/-- A window `message` event's `e.data`, when it is a `Message`:
`{ type, data? }`. -/
structure SilentMsg where
  type : String
  data : Option AuthInfoMsg := none

/-- How the `trySignInSilently` promise settles: `resolve(false)`,
`resolve(userInfo)`, or `reject(error)`. -/
inductive SilentOutcome where
  | resolvedFalse
  | resolvedUser (u : JsValue)
  | rejectedErr (e : RejectPayload)

/-- An event observable by the host-role wait: the 10-second ceiling timer
fires, or a window `message` event arrives (`none` models an event whose
`data` is not a `Message`).  A signed-in signal triggers a
`requestAccessToken` round trip; the event carries that round trip's
outcome. -/
inductive SilentEvent where
  | ceiling
  | windowMessage (m : Option SilentMsg) (exchangeResult : Except RejectPayload JsValue)

/-- State of the host-role wait: whether the window listener is still
registered, whether the ceiling timer is still armed, and the settlement. -/
structure SilentState where
  listenerRegistered : Bool
  timerLive : Bool
  settled : Option SilentOutcome

/-- The promise set up at web-worker-client.ts lines 416-447: the ceiling
delay in ms passed to `setTimeout` (line 419), and the state right after
`addEventListener` (line 446). -/
def silentStart : ℕ × SilentState :=
  (10000, { listenerRegistered := true, timerLive := true, settled := none })

/-- Settle-once for the silent sign-in promise. -/
def settleSilent (s : SilentState) (v : SilentOutcome) : SilentState :=
  match s.settled with
  | some _ => s
  | none => { s with settled := some v }

/-- `data?.type == t` for a window message event. -/
def msgTypeIs (m : Option SilentMsg) (t : String) : Bool :=
  match m with
  | some mm => decide (mm.type = t)
  | none => false

/-- `data?.data?.code` for a window message event. -/
def msgCode (m : Option SilentMsg) : Option String :=
  (m.bind SilentMsg.data).bind AuthInfoMsg.code

/-- Event semantics of the host-role wait (web-worker-client.ts lines
416-447).  The ceiling callback only resolves `false` — it does not remove
the listener.  The signed-out branch removes the listener, clears the timer
and resolves `false`.  The signed-in-with-code branch runs the exchange and
then removes the listener and resolves/rejects, clearing the timer in
`finally`.  Removed listeners receive no further events. -/
def stepSilent (s : SilentState) : SilentEvent → SilentState
  | .ceiling =>
    if s.timerLive then settleSilent { s with timerLive := false } .resolvedFalse
    else s
  | .windowMessage m exch =>
    if s.listenerRegistered then
      let s₁ :=
        if msgTypeIs m CHECK_SESSION_SIGNED_OUT then
          settleSilent { s with listenerRegistered := false, timerLive := false }
            .resolvedFalse
        else s
      if msgTypeIs m CHECK_SESSION_SIGNED_IN && jsTruthyOptStr (msgCode m) then
        match exch with
        | .ok u =>
          settleSilent { s₁ with listenerRegistered := false, timerLive := false }
            (.resolvedUser u)
        | .error e =>
          settleSilent { s₁ with listenerRegistered := false, timerLive := false }
            (.rejectedErr e)
      else s₁
    else s

/-- A signed-out signal, for witnesses. -/
def signedOutMsg : Option SilentMsg := some { type := CHECK_SESSION_SIGNED_OUT }

/-- A signed-in signal carrying a code, for witnesses. -/
def signedInMsg : Option SilentMsg :=
  some { type := CHECK_SESSION_SIGNED_IN, data := some { code := some "abc" } }

/-! ### PKCE store and `requestAccessToken` (C7, C10) -/

/-- Modelled from the spec: `SPAUtils.setPKCE`/`getPKCE`/`removePKCE`
(src/lib/src/utils, not under src/) — a key/value store of PKCE verifiers
keyed by a correlation key, modelled as an association list. -/
abbrev PkceStore := List (String × String)

/-- Modelled from the spec: `SPAUtils.setPKCE` stores the verifier under the
correlation key, overwriting any previous value. -/
def setPKCE : PkceStore → String → String → PkceStore
  | [], k, v => [(k, v)]
  | (k₀, v₀) :: rest, k, v =>
    if k₀ = k then (k, v) :: rest else (k₀, v₀) :: setPKCE rest k v

/-- Modelled from the spec: `SPAUtils.getPKCE` looks the verifier up by its
correlation key. -/
def getPKCE : PkceStore → String → Option String
  | [], _ => none
  | (k₀, v₀) :: rest, k => if k₀ = k then some v₀ else getPKCE rest k

/-- Modelled from the spec: `SPAUtils.removePKCE` deletes the entry for the
correlation key. -/
def removePKCE (s : PkceStore) (k : String) : PkceStore :=
  s.filter (fun p => p.1 ≠ k)

/-- `AuthorizationResponse` as seen by the client.  `stateParam` is
`new URL(authorizationURL).searchParams.get(STATE) ?? ""` — URL parsing is
a browser primitive, so the extracted `state` query parameter accompanies
the URL here. -/
structure AuthorizationResponse where
  authorizationURL : String
  stateParam : String
  pkce : Option String := none

/-- The PKCE bookkeeping of `getAuthorizationURL` (web-worker-client.ts
lines 462-472): when the response carries a (truthy) verifier and PKCE is
enabled, store it under the key extracted from the URL's `state` parameter.
`extractKey` is `AuthenticationUtils.extractPKCEKeyFromStateParam` from the
external `@asgardeo/auth-js` engine, taken as a parameter. -/
def getAuthorizationURLStore (extractKey : String → String) (enablePKCE : Bool)
    (store : PkceStore) (resp : AuthorizationResponse) : PkceStore :=
  match resp.pkce with
  | some v =>
    if v ≠ "" ∧ enablePKCE = true then
      setPKCE store (extractKey resp.stateParam) v
    else store
  | none => store

/-- The `AuthorizationInfo` payload sent in the `REQUEST_ACCESS_TOKEN`
message (web-worker-client.ts lines 483-493). -/
structure AuthorizationInfoMsg where
  code : String
  pkce : Option String
  sessionState : String
  state : String

/-- Everything observable about one `requestAccessToken` call: the message
payload sent, the PKCE store afterwards, the promise result, and which
follow-up effects ran. -/
structure RATResult where
  sent : AuthorizationInfoMsg
  pkceStore : PkceStore
  result : Except RejectPayload JsValue
  signOutURLSet : Option String
  checkSessionCalled : Bool
  startAutoRefreshCalled : Bool

/-- `requestAccessToken` (web-worker-client.ts lines 475-523) as a function
of its two RPC round trips (the `REQUEST_ACCESS_TOKEN` exchange and the
follow-up `GET_SIGN_OUT_URL` call), which are external events: it reads the
verifier under `extractKey state`, removes it before the exchange (line
495), and on exchange success runs the follow-up; only when the follow-up
succeeds does it persist the sign-out URL, conditionally start the session
check, start auto refresh, and resolve. -/
def requestAccessToken (extractKey : String → String)
    (enablePKCE enableOIDCSessionManagement : Bool) (store : PkceStore)
    (code sessionState state : String)
    (exchangeRoundTrip : Except RejectPayload JsValue)
    (signOutURLRoundTrip : Except RejectPayload String) : RATResult :=
  let pkceKey := extractKey state
  let sent : AuthorizationInfoMsg :=
    { code := code
      pkce := if enablePKCE then getPKCE store pkceKey else none
      sessionState := sessionState
      state := state }
  let store₁ := if enablePKCE then removePKCE store pkceKey else store
  match exchangeRoundTrip with
  | .error e =>
    { sent := sent, pkceStore := store₁, result := .error e, signOutURLSet := none
      checkSessionCalled := false, startAutoRefreshCalled := false }
  | .ok resp =>
    match signOutURLRoundTrip with
    | .error e =>
      { sent := sent, pkceStore := store₁, result := .error e, signOutURLSet := none
        checkSessionCalled := false, startAutoRefreshCalled := false }
    | .ok url =>
      { sent := sent, pkceStore := store₁, result := .ok resp
        signOutURLSet := some url
        checkSessionCalled := enableOIDCSessionManagement
        startAutoRefreshCalled := true }

/-- An authorization-URL response carrying a verifier, for the witness. -/
def sampleAuthResponse : AuthorizationResponse :=
  { authorizationURL := "https://idp.example/authorize?state=request_0"
    stateParam := "request_0"
    pkce := some "verifier123" }

/-! ### `updateConfig` (web-worker-client.ts lines 802-828) -/

/-- The `endpoints` part of the configuration that `updateConfig` inspects. -/
structure ConfigEndpoints where
  checkSessionIframe : Option String := none
  deriving DecidableEq

/-- The configuration fields `updateConfig` reads; other fields are merged
untouched and play no role in the claim. -/
structure WWClientConfig where
  endpoints : Option ConfigEndpoints := none
  enableOIDCSessionManagement : Bool := false
  deriving DecidableEq

/-- A partial configuration (`Partial<AuthClientConfig<...>>`): each field
optionally present; a present field replaces the existing one under the
shallow spread `{ ...existingConfig, ...newConfig }`. -/
structure WWClientConfigPatch where
  endpoints : Option ConfigEndpoints := none
  enableOIDCSessionManagement : Option Bool := none
  deriving DecidableEq

/-- `{ ...existingConfig, ...newConfig }` for the modelled fields. -/
def mergeConfig (e : WWClientConfig) (n : WWClientConfigPatch) : WWClientConfig :=
  { endpoints :=
      match n.endpoints with
      | some x => some x
      | none => e.endpoints
    enableOIDCSessionManagement :=
      n.enableOIDCSessionManagement.getD e.enableOIDCSessionManagement }

/-- `cfg.endpoints?.checkSessionIframe`. -/
def csIframe (ep : Option ConfigEndpoints) : Option String :=
  ep.bind ConfigEndpoints.checkSessionIframe

/-- The truthiness chain at web-worker-client.ts lines 804-812: "different"
unless both configurations hold a truthy (nonempty) `checkSessionIframe` and
the two are strictly equal.  (`existingConfig` and `newConfig` themselves
are objects, hence always truthy; missing `endpoints` collapses into
`csIframe` being `none`.) -/
def isCheckSessionIframeDifferent (e : WWClientConfig) (n : WWClientConfigPatch) : Bool :=
  !(jsTruthyOptStr (csIframe e.endpoints)
    && jsTruthyOptStr (csIframe n.endpoints)
    && decide (csIframe e.endpoints = csIframe n.endpoints))

/-- Everything observable about one `updateConfig` call: the merged
configuration sent in the `UPDATE_CONFIG` message, whether
`_sessionManagementHelper.reset()` ran, and whether `checkSession()` was
re-invoked. -/
structure UpdateConfigResult where
  sentConfig : WWClientConfig
  sessionCheckReset : Bool
  checkSessionCalled : Bool
  deriving DecidableEq

/-- `updateConfig` (web-worker-client.ts lines 802-828): merge, send the
merged configuration, and reset + re-arm the session check only when the
merged configuration enables OIDC session management and the iframe URL is
"different" per the truthiness chain. -/
def updateConfig (e : WWClientConfig) (n : WWClientConfigPatch) : UpdateConfigResult :=
  let isDiff := isCheckSessionIframeDifferent e n
  let cfg := mergeConfig e n
  { sentConfig := cfg
    sessionCheckReset := cfg.enableOIDCSessionManagement && isDiff
    checkSessionCalled := cfg.enableOIDCSessionManagement && isDiff }

/-- An existing configuration with a check-session iframe URL and session
management enabled, for the counterexample. -/
def existingCfgEx : WWClientConfig :=
  { endpoints := some { checkSessionIframe := some "https://idp.example/checksession" }
    enableOIDCSessionManagement := true }

/-- A partial update that does not touch the endpoints at all. -/
def cfgPatchEx : WWClientConfigPatch := {}

/-! ## Helper lemmas -/

/-- Once the timer is cleared and the promise settled, no further event
changes the state of a `communicate` call. -/
theorem stepChan_after_settle (rt : ℚ) (s : ChanState) (h₁ : s.timerCleared = true)
    (h₂ : s.settled.isSome) (e : ChanEvent) : stepChan rt s e = s := by
  obtain ⟨tc, st⟩ := s
  simp only [ChanState.timerCleared] at h₁
  subst h₁
  obtain ⟨v, hv⟩ := Option.isSome_iff_exists.mp h₂
  simp only [ChanState.settled] at hv
  subst hv
  cases e with
  | timerFires => simp [stepChan]
  | message m =>
    simp only [stepChan]
    cases handleMessage m with
    | none => rfl
    | some w => rfl

/-- With a truthy refresh token, `refreshAccessTokenAutomatically` arms one
timer with the computed delay and persists its handle. -/
theorem refreshAuto_arms (st : SPAState)
    (h : jsTruthyOptStr st.sessionData.refresh_token = true) :
    refreshAccessTokenAutomatically st =
      { st with
        timers := st.timers ++ [(st.nextHandle,
          (if st.sessionData.expires_in ≤ 10 then st.sessionData.expires_in
           else st.sessionData.expires_in - 10) * 1000)]
        nextHandle := st.nextHandle + 1
        refreshTimerParam := some st.nextHandle } := by
  simp [refreshAccessTokenAutomatically, h, setTimeoutJS]

/-- Without a truthy refresh token, `refreshAccessTokenAutomatically` is the
identity. -/
theorem refreshAuto_skips (st : SPAState)
    (h : jsTruthyOptStr st.sessionData.refresh_token = false) :
    refreshAccessTokenAutomatically st = st := by
  simp [refreshAccessTokenAutomatically, h]

/-- A message event matching one signal type does not match a different
one. -/
theorem msgTypeIs_ne (m : Option SilentMsg) (t t' : String) (h : msgTypeIs m t = true)
    (hne : t ≠ t') : msgTypeIs m t' = false := by
  cases m with
  | none => rfl
  | some mm =>
    simp only [msgTypeIs, decide_eq_true_eq] at h ⊢
    rw [h]
    simpa using hne

/-- Lookup after store finds the stored verifier. -/
theorem getPKCE_setPKCE (s : PkceStore) (k v : String) :
    getPKCE (setPKCE s k v) k = some v := by
  induction s with
  | nil => simp [setPKCE, getPKCE]
  | cons p rest ih =>
    obtain ⟨k₀, v₀⟩ := p
    by_cases h : k₀ = k
    · simp [setPKCE, getPKCE, h]
    · simp [setPKCE, getPKCE, h, ih]

/-- Lookup after removal finds nothing. -/
theorem getPKCE_removePKCE (s : PkceStore) (k : String) :
    getPKCE (removePKCE s k) k = none := by
  induction s with
  | nil => rfl
  | cons p rest ih =>
    obtain ⟨k₀, v₀⟩ := p
    by_cases h : k₀ = k
    · simpa [removePKCE, h] using ih
    · simpa [removePKCE, getPKCE, h] using ih

/-- The truthiness chain reports "not different" exactly when both
configurations carry the same nonempty check-session iframe URL. -/
theorem isCheckSessionIframeDifferent_false_iff (e : WWClientConfig)
    (n : WWClientConfigPatch) :
    isCheckSessionIframeDifferent e n = false ↔
      ∃ u : String, u ≠ "" ∧ csIframe e.endpoints = some u ∧
        csIframe n.endpoints = some u := by
  unfold isCheckSessionIframeDifferent
  cases he : csIframe e.endpoints with
  | none => simp [jsTruthyOptStr]
  | some u =>
    cases hn : csIframe n.endpoints with
    | none => simp [jsTruthyOptStr]
    | some w =>
      constructor
      · intro h
        by_cases hu : u = ""
        · exfalso
          rw [hu] at h
          simp [jsTruthyOptStr] at h
        · by_cases huw : u = w
          · exact ⟨u, hu, rfl, by rw [huw]⟩
          · exfalso
            simp [jsTruthyOptStr, hu, huw] at h
      · rintro ⟨x, hx, hxu, hxw⟩
        have h1 : u = x := by injection hxu
        have h2 : w = x := by injection hxw
        have huw : u = w := h1.trans h2.symm
        have hu : u ≠ "" := h1 ▸ hx
        have hw : w ≠ "" := h2 ▸ hx
        simp [jsTruthyOptStr, hu, hw, huw]

/-! ## Claim theorems -/

/-- Claim C1: for every `communicate` call, if the timeout fires before any
message, the promise rejects with the timeout exception whose description
states the elapsed time in seconds (`_requestTimeout / 1000`, defaulting to
60 000 ms / 60 s); and when a message arrives first, the per-call timer is
cleared, so a later timeout event can no longer change anything. -/
theorem communicate_timeout_spec (cfg : Option ℚ) (m : ResponseMessage) :
    requestTimeoutOf none = 60000 ∧
    (∀ rt : ℚ, (stepChan rt chanInit .timerFires).settled
        = some (.reject (.timeout (timeoutException rt)))) ∧
    (∀ rt : ℚ, ∃ a b : String,
        (timeoutException rt).description = a ++ toString (rt / 1000) ++ b) ∧
    (stepChan (requestTimeoutOf cfg) chanInit (.message m)).timerCleared = true ∧
    stepChan (requestTimeoutOf cfg)
        (stepChan (requestTimeoutOf cfg) chanInit (.message m)) .timerFires
      = stepChan (requestTimeoutOf cfg) chanInit (.message m) := by
  have hclear : ∀ rt : ℚ, (stepChan rt chanInit (.message m)).timerCleared = true := by
    intro rt
    simp only [stepChan]
    cases handleMessage m with
    | none => rfl
    | some v => rfl
  refine ⟨rfl, fun rt => rfl, ?_, hclear _, ?_⟩
  · intro rt
    exact ⟨"No response was received from the web worker for ",
      " since dispatching the request", rfl⟩
  · have h := hclear (requestTimeoutOf cfg)
    generalize hS : stepChan (requestTimeoutOf cfg) chanInit (.message m) = s at h ⊢
    simp [stepChan, h]

/-- Claim C2, counterexample: the first response message
`{ success: true, blob }` with no `data` payload makes the handler throw
while attaching the blob to `null`, so the promise neither resolves nor
rejects — ever (the timer was already cleared) — contradicting the claim
that such a response resolves, and that exactly one settlement occurs. -/
theorem communicate_blob_without_data_never_settles :
    (stepChan 60000 chanInit (.message blobWithoutDataMsg)).settled = none ∧
    (runChan 60000 chanInit [.message blobWithoutDataMsg, .timerFires]).settled
      = none :=
  ⟨rfl, rfl⟩

/-- Claim C2 (amended): for the first response on the dedicated channel —
if `success` is true and no blob is present, the promise resolves with the
deserialized payload (`null` when absent); if `success` is true and a blob
is present and the payload deserializes to an object, the blob is attached
under its `data` field before resolving; if `success` is false, the promise
rejects with the deserialized error payload or `null`; and the settlement is
unique: no later event changes it. -/
theorem communicate_resolution (rt : ℚ) (m : ResponseMessage)
    (hwf : WellFormedResponse m) :
    (m.success = true → m.blob = none →
      (stepChan rt chanInit (.message m)).settled
        = some (.resolve (m.data.getD .jnull))) ∧
    (∀ b fs, m.success = true → m.blob = some b → m.data = some (.jobj fs) →
      (stepChan rt chanInit (.message m)).settled
        = some (.resolve (.jobj (setField fs "data" (.jblob b))))) ∧
    (m.success = false →
      (stepChan rt chanInit (.message m)).settled
        = some (.reject (.remote m.error))) ∧
    (∀ es, runChan rt (stepChan rt chanInit (.message m)) es
        = stepChan rt chanInit (.message m)) := by
  refine ⟨?_, ?_, ?_, ?_⟩
  · intro hs hb
    simp [stepChan, handleMessage, hs, hb, settleOnce, chanInit]
  · intro b fs hs hb hd
    simp [stepChan, handleMessage, hs, hb, hd, attachBlob, settleOnce, chanInit]
  · intro hs
    simp [stepChan, handleMessage, hs, settleOnce, chanInit]
  · intro es
    have hclear : (stepChan rt chanInit (.message m)).timerCleared = true := by
      simp only [stepChan]
      cases handleMessage m with
      | none => rfl
      | some v => rfl
    have hsome : (stepChan rt chanInit (.message m)).settled.isSome := by
      by_cases hs : m.success = true
      · cases hb : m.blob with
        | none => simp [stepChan, handleMessage, hs, hb, settleOnce, chanInit]
        | some b =>
          obtain ⟨fs, hd⟩ := hwf hs b hb
          simp [stepChan, handleMessage, hs, hb, hd, attachBlob, settleOnce, chanInit]
      · simp [stepChan, handleMessage, hs, settleOnce, chanInit]
    induction es with
    | nil => rfl
    | cons e es ih =>
      show runChan rt (stepChan rt (stepChan rt chanInit (.message m)) e) es = _
      rw [stepChan_after_settle rt _ hclear hsome e, ih]

/-- Witness for C2 (amended): a successful response with payload
`{"x": 1}` and blob `7` resolves with the blob attached under `data`. -/
theorem communicate_resolution_witness :
    WellFormedResponse goodBlobMsg ∧
    (stepChan 60000 chanInit (.message goodBlobMsg)).settled
      = some (.resolve (.jobj [("x", .jnum 1), ("data", .jblob 7)])) :=
  ⟨fun _ _ _ => ⟨[("x", .jnum 1)], rfl⟩,
   (communicate_resolution 60000 goodBlobMsg
      (fun _ _ _ => ⟨[("x", .jnum 1)], rfl⟩)).2.1 7 [("x", .jnum 1)] rfl rfl rfl⟩

/-- Claim C3: with a refresh token present, `refreshAccessTokenAutomatically`
arms one timer with delay `expirySeconds` seconds when `expirySeconds ≤ 10`
and `expirySeconds - 10` seconds otherwise, and persists the handle; with no
refresh token it does nothing. -/
theorem refreshAccessTokenAutomatically_spec (st : SPAState) :
    (jsTruthyOptStr st.sessionData.refresh_token = true →
      refreshAccessTokenAutomatically st =
        { st with
          timers := st.timers ++ [(st.nextHandle,
            (if st.sessionData.expires_in ≤ 10 then st.sessionData.expires_in
             else st.sessionData.expires_in - 10) * 1000)]
          nextHandle := st.nextHandle + 1
          refreshTimerParam := some st.nextHandle }) ∧
    (jsTruthyOptStr st.sessionData.refresh_token = false →
      refreshAccessTokenAutomatically st = st) :=
  ⟨refreshAuto_arms st, refreshAuto_skips st⟩

/-- Witness for C3: remaining lifetime 100 s arms a 90 000 ms timer,
remaining lifetime 5 s arms a 5 000 ms timer, both persisting handle 1. -/
theorem refreshAccessTokenAutomatically_witness :
    jsTruthyOptStr (some "rt") = true ∧
    refreshAccessTokenAutomatically
        { sessionData := { refresh_token := some "rt", expires_in := 100 } } =
      { sessionData := { refresh_token := some "rt", expires_in := 100 }
        timers := [(1, 90000)]
        nextHandle := 2
        refreshTimerParam := some 1 } ∧
    refreshAccessTokenAutomatically
        { sessionData := { refresh_token := some "rt", expires_in := 5 } } =
      { sessionData := { refresh_token := some "rt", expires_in := 5 }
        timers := [(1, 5000)]
        nextHandle := 2
        refreshTimerParam := some 1 } := by
  refine ⟨by decide, ?_, ?_⟩
  · exact (refreshAccessTokenAutomatically_spec _).1 (by decide)
  · exact (refreshAccessTokenAutomatically_spec _).1 (by decide)

/-- Claim C4: scheduling (cancel-then-arm, as the spec prescribes for the
call sites) preserves the single-timer invariant: afterwards at most one
timer is armed and every previously armed timer is gone. -/
theorem scheduleRefresh_single_timer (st : SPAState) (hinv : TimerInv st) :
    TimerInv (scheduleRefresh st) ∧
    (scheduleRefresh st).timers.length ≤ 1 ∧
    (∀ t ∈ st.timers, t ∉ (scheduleRefresh st).timers) := by
  obtain ⟨hlen, hnext, htimers⟩ := hinv
  have hcleared : (clearRefreshTokenTimeout st none).timers = [] ∧
      (clearRefreshTokenTimeout st none).nextHandle = st.nextHandle ∧
      (clearRefreshTokenTimeout st none).sessionData = st.sessionData := by
    cases hp : st.refreshTimerParam with
    | none =>
      have : st.timers = [] := by
        cases ht : st.timers with
        | nil => rfl
        | cons a l =>
          exfalso
          have := htimers a (by simp [ht])
          rw [hp] at this
          exact (Option.noConfusion this.1)
      simp [clearRefreshTokenTimeout, jsTruthyOptNum, getRefreshTimeoutTimer, hp, this]
    | some v =>
      by_cases hv : v = -1
      · subst hv
        have : st.timers = [] := by
          cases ht : st.timers with
          | nil => rfl
          | cons a l =>
            exfalso
            have h := htimers a (by simp [ht])
            rw [hp] at h
            have : a.1 = -1 := by
              have := h.1
              injection this with hh
              omega
            omega
        simp [clearRefreshTokenTimeout, jsTruthyOptNum, getRefreshTimeoutTimer, hp, this]
      · have hall : ∀ t ∈ st.timers, t.1 = v := by
          intro t ht
          have := (htimers t ht).1
          rw [hp] at this
          injection this with hh
          omega
        constructor
        · simp only [clearRefreshTokenTimeout, jsTruthyOptNum, getRefreshTimeoutTimer, hp]
          simp [hv, clearTimeoutJS, List.filter_eq_nil_iff]
          intro a b hab
          exact (hall (a, b) hab)
        · simp [clearRefreshTokenTimeout, jsTruthyOptNum, getRefreshTimeoutTimer, hp, hv,
            clearTimeoutJS]
  obtain ⟨hct, hcn, hcs⟩ := hcleared
  set c := clearRefreshTokenTimeout st none with hc
  show TimerInv (refreshAccessTokenAutomatically c) ∧
    (refreshAccessTokenAutomatically c).timers.length ≤ 1 ∧
    ∀ t ∈ st.timers, t ∉ (refreshAccessTokenAutomatically c).timers
  by_cases htok : jsTruthyOptStr c.sessionData.refresh_token = true
  · have hR := refreshAuto_arms c htok
    rw [hR]
    have hnext' : 1 ≤ c.nextHandle := by omega
    refine ⟨⟨?_, ?_, ?_⟩, ?_, ?_⟩
    · simp [hct]
    · simp only []
      omega
    · intro t ht
      simp only [hct, List.nil_append, List.mem_singleton] at ht
      subst ht
      refine ⟨rfl, by simpa using hnext', ?_⟩
      show c.nextHandle < c.nextHandle + 1
      omega
    · simp [hct]
    · intro t ht hmem
      simp only [hct, List.nil_append, List.mem_singleton] at hmem
      have hlt := (htimers t ht).2.2
      rw [hmem] at hlt
      simp only [hcn] at hlt
      omega
  · have hR := refreshAuto_skips c (by
      cases h : jsTruthyOptStr c.sessionData.refresh_token
      · rfl
      · exact absurd h htok)
    rw [hR]
    refine ⟨⟨?_, ?_, ?_⟩, ?_, ?_⟩
    · simp [hct]
    · omega
    · intro t ht
      rw [hct] at ht
      simp at ht
    · simp [hct]
    · intro t ht hmem
      rw [hct] at hmem
      simp at hmem

/-- Witness for C4: a state with one armed, persisted timer satisfies the
invariant, and so does the state after rescheduling. -/
theorem scheduleRefresh_witness :
    TimerInv { sessionData := { refresh_token := some "rt", expires_in := 50 },
               refreshTimerParam := some 1, timers := [(1, 40000)], nextHandle := 2 } ∧
    TimerInv (scheduleRefresh
      { sessionData := { refresh_token := some "rt", expires_in := 50 },
        refreshTimerParam := some 1, timers := [(1, 40000)], nextHandle := 2 }) :=
  ⟨by decide,
   (scheduleRefresh_single_timer _ (by decide)).1⟩

/-- Claim C5: in the host-role wait, the ceiling is 10 000 ms and its expiry
resolves `false`; a signed-out signal resolves `false` and clears the
ceiling timer; a signed-in signal with a code resolves with the user info
from the exchange, or rejects with the exchange's error. -/
theorem trySignInSilently_host_wait_spec :
    silentStart.1 = 10000 ∧
    (stepSilent silentStart.2 .ceiling).settled = some .resolvedFalse ∧
    (∀ m exch, msgTypeIs m CHECK_SESSION_SIGNED_OUT = true →
      (stepSilent silentStart.2 (.windowMessage m exch)).settled = some .resolvedFalse ∧
      (stepSilent silentStart.2 (.windowMessage m exch)).timerLive = false) ∧
    (∀ m u, msgTypeIs m CHECK_SESSION_SIGNED_IN = true →
      jsTruthyOptStr (msgCode m) = true →
      (stepSilent silentStart.2 (.windowMessage m (.ok u))).settled
        = some (.resolvedUser u)) ∧
    (∀ m e, msgTypeIs m CHECK_SESSION_SIGNED_IN = true →
      jsTruthyOptStr (msgCode m) = true →
      (stepSilent silentStart.2 (.windowMessage m (.error e))).settled
        = some (.rejectedErr e)) := by
  refine ⟨rfl, rfl, ?_, ?_, ?_⟩
  · intro m exch hout
    have hin : msgTypeIs m CHECK_SESSION_SIGNED_IN = false :=
      msgTypeIs_ne m _ _ hout (by decide)
    constructor <;>
      simp [stepSilent, silentStart, hout, hin, settleSilent]
  · intro m u hin hcode
    have hout : msgTypeIs m CHECK_SESSION_SIGNED_OUT = false :=
      msgTypeIs_ne m _ _ hin (by decide)
    simp [stepSilent, silentStart, hout, hin, hcode, settleSilent]
  · intro m e hin hcode
    have hout : msgTypeIs m CHECK_SESSION_SIGNED_OUT = false :=
      msgTypeIs_ne m _ _ hin (by decide)
    simp [stepSilent, silentStart, hout, hin, hcode, settleSilent]

/-- Witness for C5: concrete signed-out and signed-in signals settle as the
theorem states. -/
theorem trySignInSilently_host_wait_witness :
    (stepSilent silentStart.2 (.windowMessage signedOutMsg (.ok .jnull))).settled
      = some .resolvedFalse ∧
    (stepSilent silentStart.2 (.windowMessage signedInMsg (.ok (.jnum 3)))).settled
      = some (.resolvedUser (.jnum 3)) ∧
    (stepSilent silentStart.2
        (.windowMessage signedInMsg (.error (.remote none)))).settled
      = some (.rejectedErr (.remote none)) :=
  ⟨(trySignInSilently_host_wait_spec.2.2.1 signedOutMsg (.ok .jnull) (by decide)).1,
   trySignInSilently_host_wait_spec.2.2.2.1 signedInMsg (.jnum 3) (by decide) (by decide),
   trySignInSilently_host_wait_spec.2.2.2.2 signedInMsg (.remote none) (by decide)
     (by decide)⟩

/-- Claim C6 (code bug demonstration): when the 10-second ceiling fires
first, the promise resolves `false` but the window message listener is still
registered — the timeout callback never calls `removeEventListener`
(web-worker-client.ts lines 417-419), contradicting the claimed
deregister-exactly-once behaviour. -/
theorem trySignInSilently_ceiling_leaves_listener_registered :
    (stepSilent silentStart.2 .ceiling).settled = some .resolvedFalse ∧
    (stepSilent silentStart.2 .ceiling).listenerRegistered = true :=
  ⟨rfl, rfl⟩

/-- Claim C7: a verifier stored by `getAuthorizationURL` under the
correlation key is, on the subsequent `requestAccessToken` with the same
`state`, looked up by that key, included in the token request, and removed
before the exchange, so a second lookup under the key returns `none`. -/
theorem pkce_verifier_single_use (extractKey : String → String) (store : PkceStore)
    (resp : AuthorizationResponse) (v code sessionState state : String)
    (exch : Except RejectPayload JsValue) (sor : Except RejectPayload String)
    (hpkce : resp.pkce = some v) (hv : v ≠ "")
    (hkey : extractKey state = extractKey resp.stateParam) :
    (requestAccessToken extractKey true true
        (getAuthorizationURLStore extractKey true store resp)
        code sessionState state exch sor).sent.pkce = some v ∧
    getPKCE (requestAccessToken extractKey true true
        (getAuthorizationURLStore extractKey true store resp)
        code sessionState state exch sor).pkceStore (extractKey state) = none := by
  have hstore : getAuthorizationURLStore extractKey true store resp
      = setPKCE store (extractKey resp.stateParam) v := by
    simp [getAuthorizationURLStore, hpkce, hv]
  constructor
  · have hget : getPKCE (getAuthorizationURLStore extractKey true store resp)
        (extractKey state) = some v := by
      rw [hstore, hkey, getPKCE_setPKCE]
    cases exch with
    | error e => simp [requestAccessToken, hget]
    | ok r =>
      cases sor with
      | error e => simp [requestAccessToken, hget]
      | ok u => simp [requestAccessToken, hget]
  · cases exch with
    | error e => simp [requestAccessToken, getPKCE_removePKCE]
    | ok r =>
      cases sor with
      | error e => simp [requestAccessToken, getPKCE_removePKCE]
      | ok u => simp [requestAccessToken, getPKCE_removePKCE]

/-- Witness for C7: the verifier stored for `state = "request_0"` travels in
the token request and the key is consumed. -/
theorem pkce_verifier_single_use_witness :
    (requestAccessToken id true true
        (getAuthorizationURLStore id true [] sampleAuthResponse)
        "authcode" "sess" "request_0" (.ok .jnull) (.ok "https://idp.example/out")
      ).sent.pkce = some "verifier123" ∧
    getPKCE (requestAccessToken id true true
        (getAuthorizationURLStore id true [] sampleAuthResponse)
        "authcode" "sess" "request_0" (.ok .jnull) (.ok "https://idp.example/out")
      ).pkceStore "request_0" = none :=
  pkce_verifier_single_use id [] sampleAuthResponse "verifier123" "authcode" "sess"
    "request_0" (.ok .jnull) (.ok "https://idp.example/out") rfl (by decide) rfl

/-- Claim C8, counterexample: a partial update that omits `endpoints`
leaves the merged check-session iframe URL unchanged, yet the session check
is reset and re-armed — the truthiness chain calls the URL "different"
whenever either side lacks a truthy URL. -/
theorem updateConfig_unchanged_url_still_resets :
    csIframe (mergeConfig existingCfgEx cfgPatchEx).endpoints
      = csIframe existingCfgEx.endpoints ∧
    (updateConfig existingCfgEx cfgPatchEx).sessionCheckReset = true :=
  ⟨rfl, rfl⟩

/-- Claim C8 (amended): `updateConfig` sends the merged configuration, and
the session-liveness check is reset and re-initialized exactly when the
merged configuration enables OIDC session management and it is NOT the case
that the existing and the incoming partial configuration carry the same
nonempty check-session iframe URL. -/
theorem updateConfig_spec (e : WWClientConfig) (n : WWClientConfigPatch) :
    (updateConfig e n).sentConfig = mergeConfig e n ∧
    ((updateConfig e n).sessionCheckReset = true ↔
      (mergeConfig e n).enableOIDCSessionManagement = true ∧
      ¬ ∃ u : String, u ≠ "" ∧ csIframe e.endpoints = some u ∧
          csIframe n.endpoints = some u) ∧
    (updateConfig e n).checkSessionCalled = (updateConfig e n).sessionCheckReset := by
  have hdiff : isCheckSessionIframeDifferent e n = true ↔
      ¬ ∃ u : String, u ≠ "" ∧ csIframe e.endpoints = some u ∧
        csIframe n.endpoints = some u := by
    rw [← isCheckSessionIframeDifferent_false_iff]
    cases isCheckSessionIframeDifferent e n <;> simp
  refine ⟨rfl, ?_, rfl⟩
  show ((mergeConfig e n).enableOIDCSessionManagement
      && isCheckSessionIframeDifferent e n) = true ↔ _
  rw [Bool.and_eq_true, hdiff]

/-- Claim C9: an explicit (nonzero) handle is cleared directly without
consulting the store; with no explicit handle, a persisted handle other than
the `-1` sentinel is cleared, while `-1` or no stored value is a no-op with
no `clearTimeout` call; and `getRefreshTimeoutTimer` returns the persisted
handle, or `-1` when nothing is stored. -/
theorem clearRefreshTokenTimeout_spec (st : SPAState) (t : Int) :
    (t ≠ 0 → clearRefreshTokenTimeout st (some t) = clearTimeoutJS st t) ∧
    (st.refreshTimerParam = none → clearRefreshTokenTimeout st none = st) ∧
    (st.refreshTimerParam = some (-1) → clearRefreshTokenTimeout st none = st) ∧
    (∀ v, st.refreshTimerParam = some v → v ≠ -1 →
      clearRefreshTokenTimeout st none = clearTimeoutJS st v) ∧
    (∀ v, st.refreshTimerParam = some v → getRefreshTimeoutTimer st = v) ∧
    (st.refreshTimerParam = none → getRefreshTimeoutTimer st = -1) := by
  refine ⟨?_, ?_, ?_, ?_, ?_, ?_⟩
  · intro h
    simp [clearRefreshTokenTimeout, jsTruthyOptNum, h]
  · intro h
    simp [clearRefreshTokenTimeout, jsTruthyOptNum, getRefreshTimeoutTimer, h]
  · intro h
    simp [clearRefreshTokenTimeout, jsTruthyOptNum, getRefreshTimeoutTimer, h]
  · intro v hv hne
    simp [clearRefreshTokenTimeout, jsTruthyOptNum, getRefreshTimeoutTimer, hv, hne]
  · intro v hv
    simp [getRefreshTimeoutTimer, hv]
  · intro h
    simp [getRefreshTimeoutTimer, h]

/-- Witness for C9: on a fresh state, clearing with explicit handle 5 calls
`clearTimeout(5)`, and clearing with no handle and nothing stored does
nothing. -/
theorem clearRefreshTokenTimeout_witness :
    clearRefreshTokenTimeout emptySPAState (some 5) = clearTimeoutJS emptySPAState 5 ∧
    clearRefreshTokenTimeout emptySPAState none = emptySPAState :=
  ⟨(clearRefreshTokenTimeout_spec emptySPAState 5).1 (by decide),
   (clearRefreshTokenTimeout_spec emptySPAState 5).2.1 rfl⟩

/-- Claim C10: even when the token exchange succeeds, `requestAccessToken`
rejects if the follow-up `GET_SIGN_OUT_URL` round trip fails, and the
sign-out URL is persisted, auto refresh started, and the session check
(when enabled) started only when that follow-up succeeds. -/
theorem requestAccessToken_followup_gating (extractKey : String → String)
    (enablePKCE enableOIDC : Bool) (store : PkceStore) (code ss st : String) :
    (∀ resp e,
      (requestAccessToken extractKey enablePKCE enableOIDC store code ss st
          (.ok resp) (.error e)).result = .error e ∧
      (requestAccessToken extractKey enablePKCE enableOIDC store code ss st
          (.ok resp) (.error e)).signOutURLSet = none ∧
      (requestAccessToken extractKey enablePKCE enableOIDC store code ss st
          (.ok resp) (.error e)).checkSessionCalled = false ∧
      (requestAccessToken extractKey enablePKCE enableOIDC store code ss st
          (.ok resp) (.error e)).startAutoRefreshCalled = false) ∧
    (∀ resp url,
      (requestAccessToken extractKey enablePKCE enableOIDC store code ss st
          (.ok resp) (.ok url)).result = .ok resp ∧
      (requestAccessToken extractKey enablePKCE enableOIDC store code ss st
          (.ok resp) (.ok url)).signOutURLSet = some url ∧
      (requestAccessToken extractKey enablePKCE enableOIDC store code ss st
          (.ok resp) (.ok url)).checkSessionCalled = enableOIDC ∧
      (requestAccessToken extractKey enablePKCE enableOIDC store code ss st
          (.ok resp) (.ok url)).startAutoRefreshCalled = true) ∧
    (∀ e sor,
      (requestAccessToken extractKey enablePKCE enableOIDC store code ss st
          (.error e) sor).result = .error e ∧
      (requestAccessToken extractKey enablePKCE enableOIDC store code ss st
          (.error e) sor).signOutURLSet = none ∧
      (requestAccessToken extractKey enablePKCE enableOIDC store code ss st
          (.error e) sor).checkSessionCalled = false ∧
      (requestAccessToken extractKey enablePKCE enableOIDC store code ss st
          (.error e) sor).startAutoRefreshCalled = false) := by
  refine ⟨?_, ?_, ?_⟩
  · intro resp e
    exact ⟨rfl, rfl, rfl, rfl⟩
  · intro resp url
    exact ⟨rfl, rfl, rfl, rfl⟩
  · intro e sor
    cases sor <;> exact ⟨rfl, rfl, rfl, rfl⟩

end AsgardeoSpa
